import Mathlib

/-!
# rs-polar-mqtt: the version header and the Paho smoke test

A shallow embedding of the two source files of the repository:

* `src/cpp/api/version.hpp`: the generated version macros;
* `src/test_paho/test.cpp`: `printVersion` and `main`, which create and
  destroy a client handle of the external Paho MQTT C library.

Macros are embedded as definitions over `Nat`.  For byte-sized operands the
packed value stays below `2 ^ 24` (see `MqttApi.MQTT_API_VERSION_lt`), well
inside the range of a C `int`, so no wrap-around has to be modelled there.
-/

namespace MqttApi

/-! ## `src/cpp/api/version.hpp` -/

/-- Line 5: `#define MQTT_API_VERSION_CODE 1234`. -/
def MQTT_API_VERSION_CODE : Nat := 1234

/-- Line 6: `#define MQTT_API_VERSION_STRING "2.0.1.3"`. -/
def MQTT_API_VERSION_STRING : String := "2.0.1.3"

/-- Line 7: `#define MQTT_API_VERSION(a, b, c) (((a) << 16) + ((b) << 8) + (c))`. -/
def MQTT_API_VERSION (a b c : Nat) : Nat := (a <<< 16) + (b <<< 8) + c

/-- The body of the macro of line 8, `((code & 0xff0000) >> 16)`, with the
code it reads as an operand. -/
def majorOf (code : Nat) : Nat := (code &&& 0xff0000) >>> 16

/-- The body of the macro of line 9, `((code & 0x00ff00) >> 8)`, with the
code it reads as an operand. -/
def minorOf (code : Nat) : Nat := (code &&& 0x00ff00) >>> 8

/-- The body of the macro of line 10, `(code & 0x0000ff)`, with the code it
reads as an operand. -/
def releaseOf (code : Nat) : Nat := code &&& 0x0000ff

/-- Line 8: `#define MQTT_API_VERSION_MAJOR ((MQTT_API_VERSION_CODE & 0xff0000) >> 16)`. -/
def MQTT_API_VERSION_MAJOR : Nat := majorOf MQTT_API_VERSION_CODE

/-- Line 9: `#define MQTT_API_VERSION_MINOR ((MQTT_API_VERSION_CODE & 0x00ff00) >> 8)`. -/
def MQTT_API_VERSION_MINOR : Nat := minorOf MQTT_API_VERSION_CODE

/-- Line 10: `#define MQTT_API_VERSION_RELEASE (MQTT_API_VERSION_CODE & 0x0000ff)`. -/
def MQTT_API_VERSION_RELEASE : Nat := releaseOf MQTT_API_VERSION_CODE

/-- Line 11: `#define MQTT_API_PACKAGE_NAME "mqtt-api"`. -/
def MQTT_API_PACKAGE_NAME : String := "mqtt-api"

/-- Line 12: `#define MQTT_API_PACKAGE_DATE "20160326"`. -/
def MQTT_API_PACKAGE_DATE : String := "20160326"

/-! ### Reading a dotted version string (specification side)

The header has no code that reads `MQTT_API_VERSION_STRING`; the reader below
only serves to state what "the dot-separated components of the string" are. -/

/-- The decimal components of a dotted version, read left to right; `acc` is
the value of the digits of the current component seen so far. -/
def dottedComponentsAux : List Char → Nat → List Nat
  | [], acc => [acc]
  | ch :: rest, acc =>
    if ch = '.' then acc :: dottedComponentsAux rest 0
    else dottedComponentsAux rest (acc * 10 + (ch.toNat - '0'.toNat))

/-- The dot-separated decimal components of a version string. -/
def dottedComponents (s : String) : List Nat := dottedComponentsAux s.toList 0

/-- Lexicographic order on version triples `(a, b, c)`. -/
def versionLexLt (a b c a' b' c' : Nat) : Prop :=
  a < a' ∨ (a = a' ∧ (b < b' ∨ (b = b' ∧ c < c')))

end MqttApi

namespace TestPaho

/-! ## `src/test_paho/test.cpp`

The Paho library is external to the repository.  Its constants and the
results of its functions are therefore parameters of the model
(`PahoLibrary`); every theorem about `main` holds for all of them. -/

/-- One entry of the array `MQTTClient_getVersionInfo` returns.  A `name` of
`none` is the null pointer, which ends the array. -/
structure MQTTClient_nameValue where
  name : Option String
  value : String
  deriving DecidableEq

/-- What one call of `MQTTClient_create` does: the code it returns, and the
value it stores through the handle pointer (`none` when it stores nothing, so
that the caller's `client` stays uninitialised). -/
structure CreateResult where
  rc : Int
  handle : Option Nat
  deriving DecidableEq

/-- The external library as `main` sees it: the two constants of
`MQTTClient.h` the program names, and the results of the two functions whose
results it reads. -/
structure PahoLibrary where
  MQTTCLIENT_SUCCESS : Int
  MQTTCLIENT_PERSISTENCE_NONE : Int
  -- the returned array, `none` for a null pointer
  MQTTClient_getVersionInfo : Option (List MQTTClient_nameValue)
  -- arguments: `serverURI`, `clientId`, `persistence_type`,
  -- `persistence_context` (`none` for `nullptr`)
  MQTTClient_create : String → String → Int → Option Nat → CreateResult

/-- The observable actions of the program, in the order they happen: calls of
library functions and writes to the two output streams. -/
inductive Event where
  | call_getVersionInfo
  | call_create (serverURI clientId : String) (persistence_type : Int)
      (persistence_context : Option Nat)
  | call_destroy (client : Option Nat)
  | cout (text : String)
  | cerr (text : String)
  deriving DecidableEq

/-- Whether the event is a call of a function of the external library. -/
def Event.isLibraryCall : Event → Bool
  | .call_getVersionInfo => true
  | .call_create _ _ _ _ => true
  | .call_destroy _ => true
  | .cout _ => false
  | .cerr _ => false

/-- Whether the event is a call of `MQTTClient_destroy`. -/
def Event.isDestroy : Event → Bool
  | .call_destroy _ => true
  | _ => false

/-- The library calls of a trace, in order. -/
def libraryCalls (trace : List Event) : List Event :=
  trace.filter Event.isLibraryCall

/-- Lines 9-12: `for (int i = 0; version[i].name; ++i)` prints one line per
entry and stops at the first entry whose name is null. -/
def printVersionLoop : List MQTTClient_nameValue → List Event
  | [] => []
  | nv :: rest =>
    match nv.name with
    | none => []
    | some name => Event.cout (name ++ ": " ++ nv.value ++ "\n") :: printVersionLoop rest

/-- Lines 4-18: `printVersion`. -/
def printVersion (lib : PahoLibrary) : List Event :=
  Event.call_getVersionInfo ::
    match lib.MQTTClient_getVersionInfo with
    | some version => printVersionLoop version
    | none => [Event.cout "Unable to get version information\n"]

/-- The result of running `main`: its return value and what it did. -/
structure Outcome where
  status : Int
  trace : List Event
  deriving DecidableEq

/-- Lines 25-29: the result of the one `MQTTClient_create` call of `main`. -/
def createCall (lib : PahoLibrary) : CreateResult :=
  lib.MQTTClient_create "tcp://localhost:1883" "TestClient"
    lib.MQTTCLIENT_PERSISTENCE_NONE none

/-- The event of that call. -/
def createEvent (lib : PahoLibrary) : Event :=
  Event.call_create "tcp://localhost:1883" "TestClient"
    lib.MQTTCLIENT_PERSISTENCE_NONE none

/-- Lines 20-42: `main`. -/
def main (lib : PahoLibrary) : Outcome :=
  let printed := printVersion lib
  let created := createCall lib
  let client : Option Nat := created.handle
  let rc := created.rc
  let trace := printed ++ [createEvent lib]
  if rc = lib.MQTTCLIENT_SUCCESS then
    { status := 0
      trace := trace ++
        [Event.cout "Successfully created MQTT client\n", Event.call_destroy client] }
  else
    { status := 1
      trace := trace ++
        [Event.cerr ("Failed to create MQTT client (rc=" ++ toString rc ++ ")\n")] }

/-! ### Two concrete libraries -/

/-- A library whose `MQTTClient_create` succeeds and stores handle `42`. -/
def workingLibrary : PahoLibrary where
  MQTTCLIENT_SUCCESS := 0
  MQTTCLIENT_PERSISTENCE_NONE := 1
  MQTTClient_getVersionInfo :=
    some [⟨some "Product name", "Eclipse Paho"⟩, ⟨some "Version", "1.3.13"⟩, ⟨none, ""⟩]
  MQTTClient_create := fun _ _ _ _ => ⟨0, some 42⟩

/-- A library whose `MQTTClient_create` fails with code `-1` and stores
nothing, and whose version information is missing. -/
def failingLibrary : PahoLibrary where
  MQTTCLIENT_SUCCESS := 0
  MQTTCLIENT_PERSISTENCE_NONE := 1
  MQTTClient_getVersionInfo := none
  MQTTClient_create := fun _ _ _ _ => ⟨-1, none⟩

end TestPaho

/-! ## Theorems: the version header -/

namespace MqttApi

/-- Shifting right distributes over bitwise and. -/
theorem and_shiftRight_distrib (x y n : Nat) :
    (x &&& y) >>> n = (x >>> n) &&& (y >>> n) := by
  apply Nat.eq_of_testBit_eq
  intro i
  simp only [Nat.testBit_shiftRight, Nat.testBit_and]

/-- The packing macro in positional form. -/
theorem MQTT_API_VERSION_eq (a b c : Nat) :
    MQTT_API_VERSION a b c = a * 65536 + b * 256 + c := by
  simp only [MQTT_API_VERSION, Nat.shiftLeft_eq]

/-- The major extraction is the third byte of the code. -/
theorem majorOf_eq (code : Nat) : majorOf code = code / 65536 % 256 := by
  have h : (0xff0000 : Nat) >>> 16 = 2 ^ 8 - 1 := by decide
  rw [majorOf, and_shiftRight_distrib, h, Nat.and_pow_two_sub_one_eq_mod,
    Nat.shiftRight_eq_div_pow]

/-- The minor extraction is the second byte of the code. -/
theorem minorOf_eq (code : Nat) : minorOf code = code / 256 % 256 := by
  have h : (0x00ff00 : Nat) >>> 8 = 2 ^ 8 - 1 := by decide
  rw [minorOf, and_shiftRight_distrib, h, Nat.and_pow_two_sub_one_eq_mod,
    Nat.shiftRight_eq_div_pow]

/-- The release extraction is the lowest byte of the code. -/
theorem releaseOf_eq (code : Nat) : releaseOf code = code % 256 := by
  have h : (0x0000ff : Nat) = 2 ^ 8 - 1 := by decide
  rw [releaseOf, h, Nat.and_pow_two_sub_one_eq_mod]

/-- On byte-sized components the packed value fits in 24 bits, so the `int`
arithmetic of the macro cannot overflow there. -/
theorem MQTT_API_VERSION_lt (a b c : Nat) (ha : a ≤ 255) (hb : b ≤ 255) (hc : c ≤ 255) :
    MQTT_API_VERSION a b c < 2 ^ 24 := by
  rw [MQTT_API_VERSION_eq]
  omega

/-- C3: the version macros are closed constants: `MQTT_API_VERSION_CODE` is
1234, `MQTT_API_VERSION_MAJOR`, `_MINOR` and `_RELEASE` evaluate to 0, 4 and
210, and packing these three with `MQTT_API_VERSION` gives back
`MQTT_API_VERSION_CODE`. -/
theorem version_constants :
    MQTT_API_VERSION_CODE = 1234 ∧
    MQTT_API_VERSION_MAJOR = 0 ∧
    MQTT_API_VERSION_MINOR = 4 ∧
    MQTT_API_VERSION_RELEASE = 210 ∧
    MQTT_API_VERSION MQTT_API_VERSION_MAJOR MQTT_API_VERSION_MINOR
      MQTT_API_VERSION_RELEASE = MQTT_API_VERSION_CODE := by
  decide

/-- C4: the numeric code does not agree with the version string of the same
header: the string `MQTT_API_VERSION_STRING` reads 2, 0, 1, 3, while
`MQTT_API_VERSION_MAJOR`, `_MINOR` and `_RELEASE` are 0, 4 and 210, and
`MQTT_API_VERSION_CODE` differs from `MQTT_API_VERSION(2, 0, 1)`, which is
131073. -/
theorem version_code_differs_from_string :
    dottedComponents MQTT_API_VERSION_STRING = [2, 0, 1, 3] ∧
    [MQTT_API_VERSION_MAJOR, MQTT_API_VERSION_MINOR, MQTT_API_VERSION_RELEASE] = [0, 4, 210] ∧
    [MQTT_API_VERSION_MAJOR, MQTT_API_VERSION_MINOR, MQTT_API_VERSION_RELEASE] ≠
      (dottedComponents MQTT_API_VERSION_STRING).take 3 ∧
    MQTT_API_VERSION 2 0 1 = 131073 ∧
    MQTT_API_VERSION_CODE ≠ MQTT_API_VERSION 2 0 1 := by
  decide

/-- C5: for byte-sized `a`, `b`, `c`, the extraction expressions of
`MQTT_API_VERSION_MAJOR`, `_MINOR` and `_RELEASE`, applied to the code
`MQTT_API_VERSION(a, b, c)`, give back `a`, `b` and `c`. -/
theorem version_pack_unpack (a b c : Nat) (ha : a ≤ 255) (hb : b ≤ 255) (hc : c ≤ 255) :
    (MQTT_API_VERSION a b c &&& 0xff0000) >>> 16 = a ∧
    (MQTT_API_VERSION a b c &&& 0x00ff00) >>> 8 = b ∧
    MQTT_API_VERSION a b c &&& 0x0000ff = c := by
  have hmajor := majorOf_eq (MQTT_API_VERSION a b c)
  have hminor := minorOf_eq (MQTT_API_VERSION a b c)
  have hrelease := releaseOf_eq (MQTT_API_VERSION a b c)
  simp only [majorOf, minorOf, releaseOf] at hmajor hminor hrelease
  rw [hmajor, hminor, hrelease, MQTT_API_VERSION_eq]
  omega

/-- A concrete instance of `version_pack_unpack`: version 2.0.1. -/
theorem version_pack_unpack_witness :
    (MQTT_API_VERSION 2 0 1 &&& 0xff0000) >>> 16 = 2 ∧
    (MQTT_API_VERSION 2 0 1 &&& 0x00ff00) >>> 8 = 0 ∧
    MQTT_API_VERSION 2 0 1 &&& 0x0000ff = 1 :=
  version_pack_unpack 2 0 1 (by decide) (by decide) (by decide)

/-- C6: on byte-sized components `MQTT_API_VERSION` preserves the version
order: the code of `(a, b, c)` is below the code of `(a', b', c')` exactly
when `(a, b, c)` is lexicographically smaller, and equal codes come from equal
triples (the macro is injective there). -/
theorem version_order_preserved (a b c a' b' c' : Nat)
    (_ha : a ≤ 255) (hb : b ≤ 255) (hc : c ≤ 255)
    (_ha' : a' ≤ 255) (hb' : b' ≤ 255) (hc' : c' ≤ 255) :
    (MQTT_API_VERSION a b c < MQTT_API_VERSION a' b' c' ↔ versionLexLt a b c a' b' c') ∧
    (MQTT_API_VERSION a b c = MQTT_API_VERSION a' b' c' → a = a' ∧ b = b' ∧ c = c') := by
  simp only [MQTT_API_VERSION_eq, versionLexLt]
  omega

/-- A concrete instance of `version_order_preserved`: 1.255.255 is below
2.0.0, as versions and as codes. -/
theorem version_order_preserved_witness :
    versionLexLt 1 255 255 2 0 0 ∧ MQTT_API_VERSION 1 255 255 < MQTT_API_VERSION 2 0 0 :=
  have h := version_order_preserved 1 255 255 2 0 0 (by decide) (by decide) (by decide)
    (by decide) (by decide) (by decide)
  have hlex : versionLexLt 1 255 255 2 0 0 := Or.inl (by decide)
  ⟨hlex, h.1.2 hlex⟩

end MqttApi

/-! ## Theorems: the smoke test -/

namespace TestPaho

/-- The printing loop makes no library call. -/
theorem libraryCalls_printVersionLoop (version : List MQTTClient_nameValue) :
    libraryCalls (printVersionLoop version) = [] := by
  induction version with
  | nil => rfl
  | cons nv rest ih =>
    cases hname : nv.name with
    | none => simp [printVersionLoop, hname, libraryCalls]
    | some name =>
      simp only [libraryCalls] at ih
      simp [printVersionLoop, hname, libraryCalls, Event.isLibraryCall, ih]

/-- The printing loop never calls `MQTTClient_destroy`. -/
theorem destroy_printVersionLoop (version : List MQTTClient_nameValue) :
    (printVersionLoop version).filter Event.isDestroy = [] := by
  induction version with
  | nil => rfl
  | cons nv rest ih =>
    cases hname : nv.name with
    | none => simp [printVersionLoop, hname]
    | some name => simp [printVersionLoop, hname, Event.isDestroy, ih]

/-- The only library call of `printVersion` is `MQTTClient_getVersionInfo`. -/
theorem libraryCalls_printVersion (lib : PahoLibrary) :
    libraryCalls (printVersion lib) = [Event.call_getVersionInfo] := by
  unfold printVersion
  cases lib.MQTTClient_getVersionInfo with
  | none => simp [libraryCalls, Event.isLibraryCall]
  | some version =>
    have h := libraryCalls_printVersionLoop version
    simp only [libraryCalls] at h
    simp [libraryCalls, Event.isLibraryCall, h]

/-- The function `printVersion` never calls `MQTTClient_destroy`. -/
theorem destroy_printVersion (lib : PahoLibrary) :
    (printVersion lib).filter Event.isDestroy = [] := by
  unfold printVersion
  cases lib.MQTTClient_getVersionInfo with
  | none => simp [Event.isDestroy]
  | some version => simp [Event.isDestroy, destroy_printVersionLoop]

/-- The exit status of `main` as a function of the code `rc`. -/
theorem main_status (lib : PahoLibrary) :
    (main lib).status = if (createCall lib).rc = lib.MQTTCLIENT_SUCCESS then 0 else 1 := by
  unfold main
  by_cases h : (createCall lib).rc = lib.MQTTCLIENT_SUCCESS <;> simp [h]

/-- C1: whatever `MQTTClient_create` returns, `main` returns 0 exactly when
the returned code equals `MQTTCLIENT_SUCCESS` and 1 for every other code, and
replacing the result of `MQTTClient_getVersionInfo` by any other leaves the
exit status unchanged. -/
theorem main_exit_status (lib : PahoLibrary) :
    ((main lib).status = 0 ↔ (createCall lib).rc = lib.MQTTCLIENT_SUCCESS) ∧
    ((createCall lib).rc ≠ lib.MQTTCLIENT_SUCCESS → (main lib).status = 1) ∧
    ∀ info : Option (List MQTTClient_nameValue),
      (main { lib with MQTTClient_getVersionInfo := info }).status = (main lib).status := by
  refine ⟨?_, ?_, ?_⟩
  · rw [main_status]
    by_cases h : (createCall lib).rc = lib.MQTTCLIENT_SUCCESS <;> simp [h]
  · intro h
    rw [main_status, if_neg h]
  · intro info
    rw [main_status, main_status]
    rfl

/-- Concrete instances of `main_exit_status`: exit status 0 with a library
whose create call succeeds, exit status 1 with one whose create call returns
`-1`, and the same status 0 when the working library has no version
information. -/
theorem main_exit_status_witness :
    (main workingLibrary).status = 0 ∧
    (main failingLibrary).status = 1 ∧
    (main { workingLibrary with MQTTClient_getVersionInfo := none }).status = 0 :=
  ⟨(main_exit_status workingLibrary).1.2 (by decide),
   (main_exit_status failingLibrary).2.1 (by decide),
   ((main_exit_status workingLibrary).2.2 none).trans
     ((main_exit_status workingLibrary).1.2 (by decide))⟩

/-- C2: over the trace of `main`: when `MQTTClient_create` returned
`MQTTCLIENT_SUCCESS`, the library calls are, in order, `getVersionInfo`, the
create call and one `MQTTClient_destroy` on the handle create stored, and that
is the only destroy call of the trace; when it returned any other code, the
library calls are `getVersionInfo` and the create call only, and the trace has
no destroy call. -/
theorem main_destroys_created_handle (lib : PahoLibrary) :
    ((createCall lib).rc = lib.MQTTCLIENT_SUCCESS →
      libraryCalls (main lib).trace =
        [Event.call_getVersionInfo, createEvent lib,
          Event.call_destroy (createCall lib).handle] ∧
      (main lib).trace.filter Event.isDestroy =
        [Event.call_destroy (createCall lib).handle]) ∧
    ((createCall lib).rc ≠ lib.MQTTCLIENT_SUCCESS →
      libraryCalls (main lib).trace = [Event.call_getVersionInfo, createEvent lib] ∧
      (main lib).trace.filter Event.isDestroy = []) := by
  have hcalls := libraryCalls_printVersion lib
  have hdestroy := destroy_printVersion lib
  simp only [libraryCalls] at hcalls
  constructor
  · intro h
    simp [main, h, libraryCalls, List.filter_append, hcalls, hdestroy, createEvent,
      Event.isLibraryCall, Event.isDestroy]
  · intro h
    simp [main, h, libraryCalls, List.filter_append, hcalls, hdestroy, createEvent,
      Event.isLibraryCall, Event.isDestroy]

/-- Concrete instances of `main_destroys_created_handle`: with the working
library the handle `42` is destroyed once, after the create call; with the
failing library no destroy call is made. -/
theorem main_destroys_created_handle_witness :
    (libraryCalls (main workingLibrary).trace =
        [Event.call_getVersionInfo,
          Event.call_create "tcp://localhost:1883" "TestClient" 1 none,
          Event.call_destroy (some 42)] ∧
      (main workingLibrary).trace.filter Event.isDestroy = [Event.call_destroy (some 42)]) ∧
    (libraryCalls (main failingLibrary).trace =
        [Event.call_getVersionInfo,
          Event.call_create "tcp://localhost:1883" "TestClient" 1 none] ∧
      (main failingLibrary).trace.filter Event.isDestroy = []) :=
  ⟨(main_destroys_created_handle workingLibrary).1 (by decide),
   (main_destroys_created_handle failingLibrary).2 (by decide)⟩

end TestPaho
